import Mathlib

/-!
Shallow embedding of the mssql-server-ha resource-agent helpers (Go) in Lean 4.

The embedding follows the Go source:
  * `src/go/src/mssqlcommon/lib.go` — OCF exit-code import, `Diagnose`,
    `QueryDiagnostics`, `OpenDBWithHealthCheck`, `OcfExit`;
  * `src/go/src/mssqlcommon/ag/lib.go` — `quoteName` and the AG constants;
  * the ag-helper `main.go` — `doMain` flag validation and the action
    handlers, in particular `promote` and
    `calculateRequiredSynchronizedSecondariesToCommit`.

Machine integers are modelled as `Nat`/`Int` with explicit `% 2^64`
(`uint`) and explicit `int64`/`int32` range checks where the Go code can
overflow.  Database interactions are modelled by explicit result
environments (`Except Unit _` per query), and the concurrent
connect-with-health-check loop by the sequence of events the main flow
observes.
-/

/-! ## Server health (mssqlcommon/lib.go) -/

/-- Embeds the Go `ServerHealth` constant `ServerDownOrUnresponsive = 1`. -/
def ServerDownOrUnresponsive : Nat := 1

/-- Embeds the Go `ServerHealth` constant `ServerCriticalError = 3`. -/
def ServerCriticalError : Nat := 3

/-- Embeds the Go `ServerHealth` constant `ServerModerateError = 4`. -/
def ServerModerateError : Nat := 4

/-- Embeds the Go `ServerHealth` constant `ServerAnyQualifiedError = 5`. -/
def ServerAnyQualifiedError : Nat := 5

/-- Embeds the Go struct `Diagnostics` (three booleans folded from
`sp_server_diagnostics` rows). -/
structure Diagnostics where
  System : Bool
  Resource : Bool
  QueryProcessing : Bool
deriving DecidableEq

/-- Embeds the Go struct `ServerUnhealthyError` (`RawValue` is the
`ServerHealth` severity; `Inner` is the inner error, modelled by its
message string). -/
structure ServerUnhealthyError where
  RawValue : Nat
  Inner : String
deriving DecidableEq

/-- Embeds Go `Diagnose(diagnostics)`: returns the first failure in the
order system, resource, query_processing, or no error when all three
booleans are set. -/
def Diagnose (diagnostics : Diagnostics) : Option ServerUnhealthyError :=
  if !diagnostics.System then
    some ⟨ServerCriticalError, "sp_server_diagnostics result indicates system error"⟩
  else if !diagnostics.Resource then
    some ⟨ServerModerateError, "sp_server_diagnostics result indicates resource error"⟩
  else if !diagnostics.QueryProcessing then
    some ⟨ServerAnyQualifiedError, "sp_server_diagnostics result indicates query processing error"⟩
  else
    none

/-- One row of the `EXEC sp_server_diagnostics` result set, restricted to
the two columns the Go code inspects (`componentName` and `state`). -/
structure DiagRow where
  componentName : String
  state : Int
deriving DecidableEq

/-- Embeds the row-folding loop of Go `QueryDiagnostics(db)`: starting
from the zero value of `Diagnostics` (all fields false), each row named
`system` / `resource` / `query_processing` sets the corresponding boolean
to `state == 1`; other component names are ignored. -/
def queryDiagnostics (rows : List DiagRow) : Diagnostics :=
  rows.foldl
    (fun acc r =>
      if r.componentName = "system" then { acc with System := r.state == (1 : Int) }
      else if r.componentName = "resource" then { acc with Resource := r.state == (1 : Int) }
      else if r.componentName = "query_processing" then { acc with QueryProcessing := r.state == (1 : Int) }
      else acc)
    ⟨false, false, false⟩

/-! ## RSSTC computation (ag-helper main.go) -/

/-- Embeds Go `calculateRequiredSynchronizedSecondariesToCommit(numReplicas uint)`:
`0` for exactly two replicas, otherwise `numReplicas / 2` (Go unsigned
integer division equals `Nat` division). -/
def calculateRequiredSynchronizedSecondariesToCommit (numReplicas : Nat) : Nat :=
  if numReplicas = 2 then 0 else numReplicas / 2

/-! ## Name quoting (mssqlcommon/ag/lib.go) -/

/-- Embeds `strings.Replace(s, "]", "]]", -1)` on the character list of
the string: every `']'` is doubled, all other characters kept. -/
def replBracket : List Char → List Char
  | [] => []
  | c :: cs => if c = ']' then ']' :: ']' :: replBracket cs else c :: replBracket cs

/-- Embeds Go `quoteName(s)` =
`fmt.Sprintf("[%s]", strings.Replace(s, "]", "]]", -1))`. -/
def quoteName (s : String) : String :=
  "[" ++ String.mk (replBracket s.data) ++ "]"

theorem replBracket_ne_nil (c : Char) (cs : List Char) : replBracket (c :: cs) ≠ [] := by
  by_cases hc : c = ']' <;> simp [replBracket, hc]

theorem replBracket_injective : ∀ a b : List Char, replBracket a = replBracket b → a = b := by
  intro a
  induction a with
  | nil =>
    intro b h
    cases b with
    | nil => rfl
    | cons d ds =>
      exact absurd ((show replBracket ([] : List Char) = [] from rfl) ▸ h).symm
        (replBracket_ne_nil d ds)
  | cons c cs ih =>
    intro b h
    cases b with
    | nil =>
      exact absurd ((show replBracket ([] : List Char) = [] from rfl) ▸ h)
        (replBracket_ne_nil c cs)
    | cons d ds =>
      by_cases hc : c = ']' <;> by_cases hd : d = ']'
      · subst hc; subst hd
        simp only [replBracket, if_true, reduceIte, List.cons.injEq, true_and] at h
        rw [ih ds h]
      · subst hc
        simp only [replBracket, if_true, reduceIte, if_neg hd, List.cons.injEq] at h
        exact absurd h.1.symm hd
      · subst hd
        simp only [replBracket, if_true, reduceIte, if_neg hc, List.cons.injEq] at h
        exact absurd h.1 hc
      · simp only [replBracket, if_neg hc, if_neg hd, List.cons.injEq] at h
        rw [h.1, ih ds h.2]

/-- C3: RSSTC formula.  For every non-negative integer `numSync`,
`calculateRequiredSynchronizedSecondariesToCommit(numSync)` equals 0 when
`numSync == 2` and `floor(numSync / 2)` otherwise; in particular
1→0, 2→0, 3→1, 4→2, 5→2, 6→3, 7→3. -/
theorem rsstc_formula :
    (∀ numSync : Nat,
      calculateRequiredSynchronizedSecondariesToCommit numSync =
        if numSync = 2 then 0 else numSync / 2) ∧
    calculateRequiredSynchronizedSecondariesToCommit 1 = 0 ∧
    calculateRequiredSynchronizedSecondariesToCommit 2 = 0 ∧
    calculateRequiredSynchronizedSecondariesToCommit 3 = 1 ∧
    calculateRequiredSynchronizedSecondariesToCommit 4 = 2 ∧
    calculateRequiredSynchronizedSecondariesToCommit 5 = 2 ∧
    calculateRequiredSynchronizedSecondariesToCommit 6 = 3 ∧
    calculateRequiredSynchronizedSecondariesToCommit 7 = 3 := by
  refine ⟨fun numSync => rfl, ?_, ?_, ?_, ?_, ?_, ?_, ?_⟩ <;> decide

/-- C7: Diagnose priority.  For every triple of booleans
`(System, Resource, QueryProcessing)`, `Diagnose` returns ok iff all three
are true; otherwise it returns a `ServerUnhealthyError` naming the first
false component in the order system → resource → query_processing, with
severity `CriticalError`, `ModerateError`, `AnyQualifiedError`
respectively and inner message
`sp_server_diagnostics result indicates <component> error`. -/
theorem diagnose_priority (s r q : Bool) :
    (Diagnose ⟨s, r, q⟩ = none ↔ (s = true ∧ r = true ∧ q = true)) ∧
    (s = false →
      Diagnose ⟨s, r, q⟩ =
        some ⟨ServerCriticalError, "sp_server_diagnostics result indicates system error"⟩) ∧
    (s = true → r = false →
      Diagnose ⟨s, r, q⟩ =
        some ⟨ServerModerateError, "sp_server_diagnostics result indicates resource error"⟩) ∧
    (s = true → r = true → q = false →
      Diagnose ⟨s, r, q⟩ =
        some ⟨ServerAnyQualifiedError, "sp_server_diagnostics result indicates query processing error"⟩) := by
  cases s <;> cases r <;> cases q <;> refine ⟨?_, ?_, ?_, ?_⟩ <;> decide

/-- Witness for C7: concrete evaluation of `diagnose_priority` at
`(false, true, true)`, discharging the hypothesis `s = false`. -/
theorem diagnose_priority_witness :
    Diagnose ⟨false, true, true⟩ =
      some ⟨ServerCriticalError, "sp_server_diagnostics result indicates system error"⟩ :=
  (diagnose_priority false true true).2.1 rfl

/-- C8: Name quoting.  For every string `s`, `quoteName s` equals
`"[" ++ (s with every "]" replaced by "]]") ++ "]"`, and `quoteName` is
injective. -/
theorem quoteName_spec_and_injective :
    (∀ s : String, quoteName s = "[" ++ String.mk (replBracket s.data) ++ "]") ∧
    (∀ s t : String, quoteName s = quoteName t → s = t) := by
  refine ⟨fun s => rfl, fun s t h => ?_⟩
  have hdata : ('[' :: (replBracket s.data ++ [']'])) = ('[' :: (replBracket t.data ++ [']'])) :=
    congrArg String.data h
  have h2 : replBracket s.data ++ [']'] = replBracket t.data ++ [']'] :=
    (List.cons.injEq _ _ _ _ ▸ hdata).2
  have h3 : replBracket s.data = replBracket t.data :=
    (List.append_inj' h2 rfl).1
  have h4 : s.data = t.data := replBracket_injective _ _ h3
  cases s; cases t; exact congrArg String.mk h4

/-- Witness for C8: the quoting formula at `"a]b"` and injectivity applied
at a concrete pair, discharging the equality hypothesis by `rfl`. -/
theorem quoteName_witness :
    quoteName "a]b" = "[" ++ String.mk (replBracket "a]b".data) ++ "]" ∧ ("x" : String) = "x" :=
  ⟨quoteName_spec_and_injective.1 "a]b", quoteName_spec_and_injective.2 "x" "x" rfl⟩

theorem queryDiagnostics_system_foldl (rows : List DiagRow) (acc : Diagnostics)
    (h : ∀ r ∈ rows, r.componentName ≠ "system") :
    (rows.foldl
      (fun acc r =>
        if r.componentName = "system" then { acc with System := r.state == (1 : Int) }
        else if r.componentName = "resource" then { acc with Resource := r.state == (1 : Int) }
        else if r.componentName = "query_processing" then { acc with QueryProcessing := r.state == (1 : Int) }
        else acc)
      acc).System = acc.System := by
  induction rows generalizing acc with
  | nil => rfl
  | cons row rows ih =>
    have hrow : row.componentName ≠ "system" := h row (List.mem_cons_self row rows)
    have hrest : ∀ r ∈ rows, r.componentName ≠ "system" :=
      fun r hr => h r (List.mem_cons_of_mem row hr)
    simp only [List.foldl_cons, if_neg hrow]
    by_cases h1 : row.componentName = "resource"
    · rw [if_pos h1]; exact ih _ hrest
    · rw [if_neg h1]
      by_cases h2 : row.componentName = "query_processing"
      · rw [if_pos h2]; exact ih _ hrest
      · rw [if_neg h2]; exact ih _ hrest

/-- C10: `QueryDiagnostics` starts from an all-false `Diagnostics` value
and only sets a component boolean when a row with that exact component
name is scanned; a result set containing no row named `system` leaves
`System` false, and `Diagnose` then reports a `ServerUnhealthyError` with
severity `CriticalError` exactly as for a reported system failure. -/
theorem queryDiagnostics_missing_system (rows : List DiagRow)
    (h : ∀ r ∈ rows, r.componentName ≠ "system") :
    (queryDiagnostics rows).System = false ∧
    Diagnose (queryDiagnostics rows) =
      some ⟨ServerCriticalError, "sp_server_diagnostics result indicates system error"⟩ := by
  have hsys : (queryDiagnostics rows).System = false :=
    queryDiagnostics_system_foldl rows ⟨false, false, false⟩ h
  refine ⟨hsys, ?_⟩
  unfold Diagnose
  rw [hsys]
  rfl

/-- Witness for C10: the empty result set (no rows at all) is classified
as a critical system error. -/
theorem queryDiagnostics_missing_system_witness :
    (queryDiagnostics []).System = false ∧
    Diagnose (queryDiagnostics []) =
      some ⟨ServerCriticalError, "sp_server_diagnostics result indicates system error"⟩ :=
  queryDiagnostics_missing_system [] (by intro r hr; cases hr)

/-! ## OCF exit-code import (mssqlcommon/lib.go) -/

/-- Embeds the digit-string value: `foldl (10*acc + digit) 0`. -/
def digitsVal (ds : List Char) : Nat :=
  ds.foldl (fun a c => 10 * a + (c.toNat - '0'.toNat)) 0

/-- Embeds Go `strconv.Atoi` (= `ParseInt(s, 10, 0)` with 64-bit `int`):
an optional single leading sign, then one or more decimal digits, with
the result required to fit in `int64`; anything else (including the empty
string) is a parse error, modelled as `none`. -/
def goAtoi (s : String) : Option Int :=
  match s.data with
  | [] => none
  | c :: rest =>
    let neg := c = '-'
    let ds := if c = '-' ∨ c = '+' then rest else c :: rest
    if ds.isEmpty then none
    else if ds.all Char.isDigit then
      let v : Int := if neg then -(digitsVal ds : Int) else (digitsVal ds : Int)
      if -(2 ^ 63) ≤ v ∧ v ≤ 2 ^ 63 - 1 then some v else none
    else none

/-- The nine process-wide OCF exit-code slots (Go package-level `var`s of
type `OcfExitCode = int`), gathered into a record: the post-state of a
successful `ImportOcfExitCodes`. -/
structure OcfCodes where
  OCF_ERR_CONFIGURED : Int
  OCF_ERR_GENERIC : Int
  OCF_ERR_ARGS : Int
  OCF_ERR_PERM : Int
  OCF_ERR_UNIMPLEMENTED : Int
  OCF_FAILED_MASTER : Int
  OCF_NOT_RUNNING : Int
  OCF_RUNNING_MASTER : Int
  OCF_SUCCESS : Int
deriving DecidableEq

/-- Embeds Go `importOcfExitCode(name)`: `os.Getenv` (the environment is
a total function returning `""` for unset names) followed by
`strconv.Atoi`; on failure the error is
`"<NAME> is set to an invalid value [<raw>]"`. -/
def importOne (envf : String → String) (name : String) : Except String Int :=
  match goAtoi (envf name) with
  | some v => .ok v
  | none => .error (name ++ " is set to an invalid value [" ++ envf name ++ "]")

/-- Embeds Go `ImportOcfExitCodes()`: imports the nine names in the fixed
source order, stopping at the first failure. -/
def importOcfExitCodes (envf : String → String) : Except String OcfCodes := do
  let vConfigured ← importOne envf "OCF_ERR_CONFIGURED"
  let vGeneric ← importOne envf "OCF_ERR_GENERIC"
  let vArgs ← importOne envf "OCF_ERR_ARGS"
  let vPerm ← importOne envf "OCF_ERR_PERM"
  let vUnimplemented ← importOne envf "OCF_ERR_UNIMPLEMENTED"
  let vFailedMaster ← importOne envf "OCF_FAILED_MASTER"
  let vNotRunning ← importOne envf "OCF_NOT_RUNNING"
  let vRunningMaster ← importOne envf "OCF_RUNNING_MASTER"
  let vSuccess ← importOne envf "OCF_SUCCESS"
  return ⟨vConfigured, vGeneric, vArgs, vPerm, vUnimplemented, vFailedMaster, vNotRunning, vRunningMaster, vSuccess⟩

/-- The fixed import order of `ImportOcfExitCodes`. -/
def ocfImportOrder : List String :=
  ["OCF_ERR_CONFIGURED", "OCF_ERR_GENERIC", "OCF_ERR_ARGS", "OCF_ERR_PERM",
   "OCF_ERR_UNIMPLEMENTED", "OCF_FAILED_MASTER", "OCF_NOT_RUNNING",
   "OCF_RUNNING_MASTER", "OCF_SUCCESS"]

/-- The first name in the fixed import order whose raw environment value
fails to parse, if any. -/
def firstBadOcfName (envf : String → String) : Option String :=
  ocfImportOrder.find? (fun n => (goAtoi (envf n)).isNone)

/-- C5: OCF import all-or-nothing.  If every one of the nine `OCF_*`
environment variables parses as a decimal integer, `ImportOcfExitCodes`
returns ok and each of the nine slots equals its parsed value; otherwise
it returns the error `"<NAME> is set to an invalid value [<raw>]"` where
`NAME` is the first name in the fixed import order whose raw value fails
to parse (the empty string for an unset variable included). -/
theorem importOcfExitCodes_spec (envf : String → String) :
    (firstBadOcfName envf = none →
      ∃ c : OcfCodes, importOcfExitCodes envf = .ok c ∧
        goAtoi (envf "OCF_ERR_CONFIGURED") = some c.OCF_ERR_CONFIGURED ∧
        goAtoi (envf "OCF_ERR_GENERIC") = some c.OCF_ERR_GENERIC ∧
        goAtoi (envf "OCF_ERR_ARGS") = some c.OCF_ERR_ARGS ∧
        goAtoi (envf "OCF_ERR_PERM") = some c.OCF_ERR_PERM ∧
        goAtoi (envf "OCF_ERR_UNIMPLEMENTED") = some c.OCF_ERR_UNIMPLEMENTED ∧
        goAtoi (envf "OCF_FAILED_MASTER") = some c.OCF_FAILED_MASTER ∧
        goAtoi (envf "OCF_NOT_RUNNING") = some c.OCF_NOT_RUNNING ∧
        goAtoi (envf "OCF_RUNNING_MASTER") = some c.OCF_RUNNING_MASTER ∧
        goAtoi (envf "OCF_SUCCESS") = some c.OCF_SUCCESS) ∧
    (∀ name, firstBadOcfName envf = some name →
      importOcfExitCodes envf =
        .error (name ++ " is set to an invalid value [" ++ envf name ++ "]")) := by
  constructor
  · intro hnone
    have hall : ∀ n ∈ ocfImportOrder, ¬((goAtoi (envf n)).isNone = true) :=
      fun n hn => by
        have := List.find?_eq_none.mp hnone n hn
        simpa using this
    have hsome : ∀ n ∈ ocfImportOrder, ∃ v, goAtoi (envf n) = some v := by
      intro n hn
      cases hv : goAtoi (envf n) with
      | none => exact absurd (by simp [hv]) (hall n hn)
      | some v => exact ⟨v, rfl⟩
    obtain ⟨v1, h1⟩ := hsome "OCF_ERR_CONFIGURED" (by simp [ocfImportOrder])
    obtain ⟨v2, h2⟩ := hsome "OCF_ERR_GENERIC" (by simp [ocfImportOrder])
    obtain ⟨v3, h3⟩ := hsome "OCF_ERR_ARGS" (by simp [ocfImportOrder])
    obtain ⟨v4, h4⟩ := hsome "OCF_ERR_PERM" (by simp [ocfImportOrder])
    obtain ⟨v5, h5⟩ := hsome "OCF_ERR_UNIMPLEMENTED" (by simp [ocfImportOrder])
    obtain ⟨v6, h6⟩ := hsome "OCF_FAILED_MASTER" (by simp [ocfImportOrder])
    obtain ⟨v7, h7⟩ := hsome "OCF_NOT_RUNNING" (by simp [ocfImportOrder])
    obtain ⟨v8, h8⟩ := hsome "OCF_RUNNING_MASTER" (by simp [ocfImportOrder])
    obtain ⟨v9, h9⟩ := hsome "OCF_SUCCESS" (by simp [ocfImportOrder])
    refine ⟨⟨v1, v2, v3, v4, v5, v6, v7, v8, v9⟩, ?_, h1, h2, h3, h4, h5, h6, h7, h8, h9⟩
    simp [importOcfExitCodes, importOne, Bind.bind, Except.bind, Functor.map, Except.map, Pure.pure, Except.pure, h1, h2, h3, h4, h5, h6, h7, h8, h9]
  · intro name hname
    cases h1 : goAtoi (envf "OCF_ERR_CONFIGURED") with
    | none =>
      have hn : name = "OCF_ERR_CONFIGURED" := by
        simp [firstBadOcfName, ocfImportOrder, List.find?, h1] at hname
        exact hname.symm
      subst hn
      simp [importOcfExitCodes, importOne, Bind.bind, Except.bind, Functor.map, Except.map, Pure.pure, Except.pure, h1]
    | some v1 =>
    cases h2 : goAtoi (envf "OCF_ERR_GENERIC") with
    | none =>
      have hn : name = "OCF_ERR_GENERIC" := by
        simp [firstBadOcfName, ocfImportOrder, List.find?, h1, h2] at hname
        exact hname.symm
      subst hn
      simp [importOcfExitCodes, importOne, Bind.bind, Except.bind, Functor.map, Except.map, Pure.pure, Except.pure, h1, h2]
    | some v2 =>
    cases h3 : goAtoi (envf "OCF_ERR_ARGS") with
    | none =>
      have hn : name = "OCF_ERR_ARGS" := by
        simp [firstBadOcfName, ocfImportOrder, List.find?, h1, h2, h3] at hname
        exact hname.symm
      subst hn
      simp [importOcfExitCodes, importOne, Bind.bind, Except.bind, Functor.map, Except.map, Pure.pure, Except.pure, h1, h2, h3]
    | some v3 =>
    cases h4 : goAtoi (envf "OCF_ERR_PERM") with
    | none =>
      have hn : name = "OCF_ERR_PERM" := by
        simp [firstBadOcfName, ocfImportOrder, List.find?, h1, h2, h3, h4] at hname
        exact hname.symm
      subst hn
      simp [importOcfExitCodes, importOne, Bind.bind, Except.bind, Functor.map, Except.map, Pure.pure, Except.pure, h1, h2, h3, h4]
    | some v4 =>
    cases h5 : goAtoi (envf "OCF_ERR_UNIMPLEMENTED") with
    | none =>
      have hn : name = "OCF_ERR_UNIMPLEMENTED" := by
        simp [firstBadOcfName, ocfImportOrder, List.find?, h1, h2, h3, h4, h5] at hname
        exact hname.symm
      subst hn
      simp [importOcfExitCodes, importOne, Bind.bind, Except.bind, Functor.map, Except.map, Pure.pure, Except.pure, h1, h2, h3, h4, h5]
    | some v5 =>
    cases h6 : goAtoi (envf "OCF_FAILED_MASTER") with
    | none =>
      have hn : name = "OCF_FAILED_MASTER" := by
        simp [firstBadOcfName, ocfImportOrder, List.find?, h1, h2, h3, h4, h5, h6] at hname
        exact hname.symm
      subst hn
      simp [importOcfExitCodes, importOne, Bind.bind, Except.bind, Functor.map, Except.map, Pure.pure, Except.pure, h1, h2, h3, h4, h5, h6]
    | some v6 =>
    cases h7 : goAtoi (envf "OCF_NOT_RUNNING") with
    | none =>
      have hn : name = "OCF_NOT_RUNNING" := by
        simp [firstBadOcfName, ocfImportOrder, List.find?, h1, h2, h3, h4, h5, h6, h7] at hname
        exact hname.symm
      subst hn
      simp [importOcfExitCodes, importOne, Bind.bind, Except.bind, Functor.map, Except.map, Pure.pure, Except.pure, h1, h2, h3, h4, h5, h6, h7]
    | some v7 =>
    cases h8 : goAtoi (envf "OCF_RUNNING_MASTER") with
    | none =>
      have hn : name = "OCF_RUNNING_MASTER" := by
        simp [firstBadOcfName, ocfImportOrder, List.find?, h1, h2, h3, h4, h5, h6, h7, h8] at hname
        exact hname.symm
      subst hn
      simp [importOcfExitCodes, importOne, Bind.bind, Except.bind, Functor.map, Except.map, Pure.pure, Except.pure, h1, h2, h3, h4, h5, h6, h7, h8]
    | some v8 =>
    cases h9 : goAtoi (envf "OCF_SUCCESS") with
    | none =>
      have hn : name = "OCF_SUCCESS" := by
        simp [firstBadOcfName, ocfImportOrder, List.find?, h1, h2, h3, h4, h5, h6, h7, h8, h9] at hname
        exact hname.symm
      subst hn
      simp [importOcfExitCodes, importOne, Bind.bind, Except.bind, Functor.map, Except.map, Pure.pure, Except.pure, h1, h2, h3, h4, h5, h6, h7, h8, h9]
    | some v9 =>
      exfalso
      simp [firstBadOcfName, ocfImportOrder, List.find?, h1, h2, h3, h4, h5, h6, h7, h8, h9] at hname

/-- Witness for C5: a concrete environment mapping every name to `"7"`
parses everywhere, and `importOcfExitCodes` succeeds with every slot 7. -/
theorem importOcfExitCodes_spec_witness :
    ∃ c : OcfCodes, importOcfExitCodes (fun _ => "7") = .ok c ∧
      goAtoi ((fun (_ : String) => "7") "OCF_ERR_CONFIGURED") = some c.OCF_ERR_CONFIGURED ∧
      goAtoi ((fun (_ : String) => "7") "OCF_ERR_GENERIC") = some c.OCF_ERR_GENERIC ∧
      goAtoi ((fun (_ : String) => "7") "OCF_ERR_ARGS") = some c.OCF_ERR_ARGS ∧
      goAtoi ((fun (_ : String) => "7") "OCF_ERR_PERM") = some c.OCF_ERR_PERM ∧
      goAtoi ((fun (_ : String) => "7") "OCF_ERR_UNIMPLEMENTED") = some c.OCF_ERR_UNIMPLEMENTED ∧
      goAtoi ((fun (_ : String) => "7") "OCF_FAILED_MASTER") = some c.OCF_FAILED_MASTER ∧
      goAtoi ((fun (_ : String) => "7") "OCF_NOT_RUNNING") = some c.OCF_NOT_RUNNING ∧
      goAtoi ((fun (_ : String) => "7") "OCF_RUNNING_MASTER") = some c.OCF_RUNNING_MASTER ∧
      goAtoi ((fun (_ : String) => "7") "OCF_SUCCESS") = some c.OCF_SUCCESS :=
  (importOcfExitCodes_spec (fun _ => "7")).1 (by decide)

/-! ## ag-helper dispatcher, stop path (ag-helper main.go, doMain) -/

/-- The command-line flags of the ag-helper that the pre-connection part
of `doMain` inspects (`port` is Go `uint64`, 0 when unset). -/
structure AgFlags where
  hostname : String
  port : Nat
  agName : String
  credentialsFile : String
  applicationName : String
  action : String
  newMaster : String
deriving DecidableEq

/-- Outcome of the pre-connection part of `doMain`: a flag-validation
error or an `ImportOcfExitCodes` error makes `doMain` return an error and
`main` exit with status 1; `OcfExit` terminates the process with status
`code + 10`; any other action proceeds to the DB connection. -/
inductive StopOutcome where
  | flagError
  | importError
  | exited (status : Int) (dbConnectionAttempted : Bool)
  | proceeded (codes : OcfCodes)
deriving DecidableEq

/-- Embeds `doMain` from flag validation up to and including the
`action == "stop"` branch: the required-flag checks, then
`ImportOcfExitCodes`, then — for `stop` — `OcfExit(OCF_SUCCESS, nil)`
without any DB connection (`OcfExit` exits with `code + 10`). -/
def doMainStopPath (flags : AgFlags) (envf : String → String) : StopOutcome :=
  if flags.hostname = "" then .flagError
  else if flags.port = 0 then .flagError
  else if flags.agName = "" then .flagError
  else if flags.credentialsFile = "" then .flagError
  else if flags.applicationName = "" then .flagError
  else if flags.action = "" then .flagError
  else if flags.action = "promote" ∧ flags.newMaster = "" then .flagError
  else
    match importOcfExitCodes envf with
    | .error _ => .importError
    | .ok codes =>
      if flags.action = "stop" then .exited (codes.OCF_SUCCESS + 10) false
      else .proceeded codes

/-- C4 counterexample: with every required flag supplied and
`--action stop`, an environment whose nine `OCF_*` variables are valid
but set `OCF_SUCCESS=1` makes the helper exit with status `1 + 10 = 11`,
not 10 — the exit status does depend on the `OCF_SUCCESS` environment
variable; and an environment with `OCF_SUCCESS` unset makes the helper
fail out of `ImportOcfExitCodes` (so the import is performed on the stop
path).  In both runs no DB connection is attempted. -/
theorem ag_stop_counterexample :
    doMainStopPath ⟨"localhost", 1433, "ag1", "/var/secrets/creds", "monitor-helper", "stop", ""⟩
        (fun n => if n = "OCF_SUCCESS" then "1" else "0") =
      .exited 11 false ∧
    ((11 : Int) ≠ 10) ∧
    doMainStopPath ⟨"localhost", 1433, "ag1", "/var/secrets/creds", "monitor-helper", "stop", ""⟩
        (fun n => if n = "OCF_SUCCESS" then "" else "0") =
      .importError := by
  refine ⟨by decide, by decide, by decide⟩

/-- C4 amended: for `--action stop` with all required flags supplied,
the helper never attempts a DB connection, but `ImportOcfExitCodes` *is*
called first: when the nine `OCF_*` variables import successfully the
process exits via `OcfExit(OCF_SUCCESS, nil)` with status
`imported OCF_SUCCESS + 10` (10 exactly when the environment sets
`OCF_SUCCESS` to 0), and when the import fails the helper exits with
status 1 instead. -/
theorem ag_stop_amended (flags : AgFlags) (envf : String → String) (codes : OcfCodes)
    (hact : flags.action = "stop")
    (hhost : flags.hostname ≠ "") (hport : flags.port ≠ 0) (hag : flags.agName ≠ "")
    (hcred : flags.credentialsFile ≠ "") (happ : flags.applicationName ≠ "")
    (himp : importOcfExitCodes envf = .ok codes) :
    doMainStopPath flags envf = .exited (codes.OCF_SUCCESS + 10) false := by
  have hne : flags.action ≠ "" := by rw [hact]; decide
  have hnp : ¬(flags.action = "promote" ∧ flags.newMaster = "") := by
    rintro ⟨hp, -⟩
    rw [hact] at hp
    exact absurd hp (by decide)
  simp [doMainStopPath, hact, hhost, hport, hag, hcred, happ, hne, hnp, himp]

/-- Witness for C4's amended theorem: concrete flags and a concrete
environment with `OCF_SUCCESS=0`, giving exit status 10. -/
theorem ag_stop_amended_witness :
    doMainStopPath ⟨"localhost", 1433, "ag1", "/var/secrets/creds", "monitor-helper", "stop", ""⟩
        (fun n => if n = "OCF_SUCCESS" then "0" else "4") =
      .exited ((0 : Int) + 10) false :=
  ag_stop_amended _ _ ⟨4, 4, 4, 4, 4, 4, 4, 4, 0⟩ rfl
    (by decide) (by decide) (by decide) (by decide) (by decide) rfl

/-! ## Promotion protocol (ag-helper main.go, promote) -/

/-- Embeds the Go `Role` constant `RolePRIMARY = 1` (a `byte`). -/
def RolePRIMARY : Nat := 1

/-- Embeds the Go `Role` constant `RoleSECONDARY = 2` (a `byte`). -/
def RoleSECONDARY : Nat := 2

/-- Embeds the Go `AvailabilityMode` constant `AmSYNCHRONOUS_COMMIT = 1`
(a `byte`). -/
def AmSYNCHRONOUS_COMMIT : Nat := 1

/-- Modulus of Go `uint` (64-bit on the targeted platforms). -/
def UINT64_MOD : Nat := 2 ^ 64

/-- The largest `int64` value; `strconv.ParseInt(_, 10, 64)` fails with a
range error on digit strings above it. -/
def INT64_MAX : Nat := 2 ^ 63 - 1

/-- The largest `int32` value (`math.MaxInt32`), the upper bound `doMain`
accepts for `--required-synchronized-secondaries-to-commit`. -/
def MaxInt32 : Nat := 2 ^ 31 - 1

/-- Go `uint` subtraction `a - b`, i.e. subtraction modulo `2^64`. -/
def usub64 (a b : Nat) : Nat :=
  (a % UINT64_MOD + (UINT64_MOD - b % UINT64_MOD)) % UINT64_MOD

/-- Embeds Go `strings.Split(s, "\n")` (auxiliary: remaining characters
and the reversed current piece). -/
def splitLinesAux : List Char → List Char → List String
  | [], acc => [String.mk acc.reverse]
  | c :: cs, acc =>
    if c = '\n' then String.mk acc.reverse :: splitLinesAux cs []
    else splitLinesAux cs (c :: acc)

/-- Embeds Go `strings.Split(s, "\n")`: the pieces of `s` between
newlines (one piece, possibly empty, more than there are newlines). -/
def splitLines (s : String) : List String :=
  splitLinesAux s.data []

/-- Drops the literal character sequence `pat` from the front of `cs`,
or fails. -/
def dropLit : List Char → List Char → Option (List Char)
  | [], cs => some cs
  | _ :: _, [] => none
  | p :: ps, c :: cs => if c = p then dropLit ps cs else none

/-- Embeds a match of the Go regex
`^name="[^"]+" value=...` used by `promote`, namely
`^name="[^"]+" host="([^"]+)" value="(\d+)"$`: on success returns the
`host` capture and the digit characters of the `value` capture.  Because
the character classes exclude `"`, the regex match is equivalent to this
deterministic decomposition at the quote boundaries. -/
def matchSeqLine (line : String) : Option (String × List Char) :=
  match dropLit "name=\"".data line.data with
  | none => none
  | some r0 =>
    let a := r0.takeWhile (fun c => c ≠ '"')
    let r1 := r0.dropWhile (fun c => c ≠ '"')
    if a.isEmpty then none
    else
      match dropLit "\" host=\"".data r1 with
      | none => none
      | some r2 =>
        let host := r2.takeWhile (fun c => c ≠ '"')
        let r3 := r2.dropWhile (fun c => c ≠ '"')
        if host.isEmpty then none
        else
          match dropLit "\" value=\"".data r3 with
          | none => none
          | some r4 =>
            let v := r4.takeWhile (fun c => c ≠ '"')
            let r5 := r4.dropWhile (fun c => c ≠ '"')
            if v.isEmpty then none
            else if v.all Char.isDigit then
              if r5 = ['"'] then some (String.mk host, v) else none
            else none

/-- Embeds the sequence-number parsing loop of `promote`: the accumulators
are `maxSequenceNumber`, `newMasterSequenceNumber` (both `int64`, always
non-negative here) and `numSequenceNumbers` (a `uint`, returned as the
unreduced count; `promote` reduces it mod `2^64`).  `none` models the
early `OCF_ERR_GENERIC` return when `strconv.ParseInt(_, 10, 64)` fails
on a matched line (digits overflowing `int64`). -/
def parseSeqLoop (newMaster : String) :
    List String → Nat → Nat → Nat → Option (Nat × Nat × Nat)
  | [], maxSeq, nmSeq, count => some (maxSeq, nmSeq, count)
  | l :: ls, maxSeq, nmSeq, count =>
    match matchSeqLine l with
    | none => parseSeqLoop newMaster ls maxSeq nmSeq count
    | some (host, ds) =>
      let value := digitsVal ds
      if value > INT64_MAX then none
      else
        parseSeqLoop newMaster ls
          (if value > maxSeq then value else maxSeq)
          (if host = newMaster then value else nmSeq)
          (count + 1)

/-- The value the parsing loop records for `new-master`: the value of the
last regex-matched line whose host equals `new-master`, or the
accumulator (0 at top level) when no matched line names that host. -/
def recordedNewMasterValue (newMaster : String) : List String → Nat → Nat
  | [], acc => acc
  | l :: ls, acc =>
    match matchSeqLine l with
    | none => recordedNewMasterValue newMaster ls acc
    | some (host, ds) =>
      recordedNewMasterValue newMaster ls (if host = newMaster then digitsVal ds else acc)

/-- The number of lines of the sequence-numbers blob matched by the
regex. -/
def matchedSeqLineCount (sequenceNumbers : String) : Nat :=
  ((splitLines sequenceNumbers).filter (fun l => (matchSeqLine l).isSome)).length

/-- The database responses a single `promote` invocation can consume, in
source order: `GetRole` (for `isPrimary`), `GetAvailabilityMode`,
`GetNumSyncCommitReplicas`, the `FAILOVER` DDL, the poll for PRIMARY
role, and the RSSTC DDL.  `Except.error ()` models the query or DDL
returning an error. -/
structure PromoteEnv where
  roleResult : Except Unit Nat
  modeResult : Except Unit Nat
  numSyncResult : Except Unit Nat
  failoverResult : Except Unit Unit
  waitPrimaryResult : Except Unit Unit
  setRsstcResult : Except Unit Unit

/-- Result of `promote`: the symbolic OCF exit code it returns together
with whether the `FAILOVER` DDL was issued (i.e. whether
`mssqlag.Failover` was reached). -/
structure PromoteResult where
  code : String
  failoverIssued : Bool
deriving DecidableEq

/-- Embeds the part of Go `promote` that follows the isPrimary check and
the availability-mode precheck: the sequence-number parsing loop, the
max/zero sequence-number checks, the `GetNumSyncCommitReplicas` query,
the quorum check (with the Go `uint` subtraction), the `FAILOVER` DDL,
the PRIMARY poll and the final RSSTC DDL. -/
def promoteAfterPrecheck (env : PromoteEnv) (sequenceNumbers : String) (newMaster : String)
    (requiredSynchronizedSecondariesToCommit : Option Nat) : PromoteResult :=
  match parseSeqLoop newMaster (splitLines sequenceNumbers) 0 0 0 with
  | none => ⟨"OCF_ERR_GENERIC", false⟩
  | some (maxSequenceNumber, newMasterSequenceNumber, numSequenceNumbers) =>
    if newMasterSequenceNumber < maxSequenceNumber then ⟨"OCF_ERR_GENERIC", false⟩
    else if newMasterSequenceNumber = 0 then ⟨"OCF_ERR_GENERIC", false⟩
    else
      match env.numSyncResult with
      | .error _ => ⟨"OCF_ERR_GENERIC", false⟩
      | .ok numSyncCommitReplicas =>
        let requiredValue :=
          match requiredSynchronizedSecondariesToCommit with
          | none => calculateRequiredSynchronizedSecondariesToCommit numSyncCommitReplicas
          | some v => v
        let requiredNumSequenceNumbers := usub64 numSyncCommitReplicas requiredValue
        if numSequenceNumbers % UINT64_MOD < requiredNumSequenceNumbers then
          ⟨"OCF_ERR_GENERIC", false⟩
        else
          match env.failoverResult with
          | .error _ => ⟨"OCF_FAILED_MASTER", true⟩
          | .ok _ =>
            match env.waitPrimaryResult with
            | .error _ => ⟨"OCF_FAILED_MASTER", true⟩
            | .ok _ =>
              match env.setRsstcResult with
              | .error _ => ⟨"OCF_ERR_GENERIC", true⟩
              | .ok _ => ⟨"OCF_SUCCESS", true⟩

/-- Embeds Go `promote(db, agName, sequenceNumbers, newMaster,
skipPreCheck, requiredSynchronizedSecondariesToCommit, stdout)`.  The
symbolic exit codes are the names of the Go package-level variables the
handler returns.  `requiredSynchronizedSecondariesToCommit : Option Nat`
is the Go `*uint` (`none` = nil = derive the value). -/
def promote (env : PromoteEnv) (sequenceNumbers : String) (newMaster : String)
    (skipPreCheck : Bool) (requiredSynchronizedSecondariesToCommit : Option Nat) :
    PromoteResult :=
  match env.roleResult with
  | .error _ => ⟨"OCF_ERR_GENERIC", false⟩
  | .ok role =>
    if role = RolePRIMARY then ⟨"OCF_SUCCESS", false⟩
    else
      let precheckFailure : Option PromoteResult :=
        if skipPreCheck then none
        else
          match env.modeResult with
          | .error _ => some ⟨"OCF_ERR_GENERIC", false⟩
          | .ok availabilityMode =>
            if availabilityMode = AmSYNCHRONOUS_COMMIT then none
            else some ⟨"OCF_ERR_GENERIC", false⟩
      match precheckFailure with
      | some r => r
      | none =>
        promoteAfterPrecheck env sequenceNumbers newMaster
          requiredSynchronizedSecondariesToCommit

/-- Embeds the `--required-synchronized-secondaries-to-commit` validation
in `doMain` (the flag is a Go `int`; `-1` means "derive"): values other
than `-1` that are negative or above `math.MaxInt32` exit with
`OCF_ERR_CONFIGURED`; accepted values are converted to `uint`. -/
def parseRsstcArg (arg : Int) : Except String (Option Nat) :=
  if arg = -1 then .ok none
  else if arg < 0 ∨ arg > (MaxInt32 : Int) then .error "OCF_ERR_CONFIGURED"
  else .ok (some arg.toNat)

theorem parseSeqLoop_le_max (newMaster : String) :
    ∀ (lines : List String) (a b c M N C : Nat),
      parseSeqLoop newMaster lines a b c = some (M, N, C) → a ≤ M := by
  intro lines
  induction lines with
  | nil =>
    intro a b c M N C h
    simp [parseSeqLoop] at h
    omega
  | cons l ls ih =>
    intro a b c M N C h
    cases hm : matchSeqLine l with
    | none =>
      rw [parseSeqLoop, hm] at h
      exact ih a b c M N C h
    | some pair =>
      obtain ⟨host, ds⟩ := pair
      rw [parseSeqLoop, hm] at h
      by_cases hov : digitsVal ds > INT64_MAX
      · simp only [hov, if_pos] at h
        exact absurd h (by simp)
      · simp only [hov, if_neg, if_false, ite_false] at h
        have step := ih _ _ _ _ _ _ h
        by_cases hgt : digitsVal ds > a
        · rw [if_pos hgt] at step; omega
        · rw [if_neg hgt] at step; omega

theorem parseSeqLoop_value_le (newMaster : String) :
    ∀ (lines : List String) (a b c M N C : Nat),
      parseSeqLoop newMaster lines a b c = some (M, N, C) →
      ∀ l ∈ lines, ∀ (host : String) (ds : List Char),
        matchSeqLine l = some (host, ds) → digitsVal ds ≤ M := by
  intro lines
  induction lines with
  | nil =>
    intro a b c M N C _ l hl
    exact absurd hl (List.not_mem_nil l)
  | cons l0 ls ih =>
    intro a b c M N C h l hl host ds hmatch
    cases hm : matchSeqLine l0 with
    | none =>
      rw [parseSeqLoop, hm] at h
      rcases List.mem_cons.mp hl with heq | hmem
      · subst heq
        rw [hm] at hmatch
        exact absurd hmatch (by simp)
      · exact ih a b c M N C h l hmem host ds hmatch
    | some pair =>
      obtain ⟨host0, ds0⟩ := pair
      rw [parseSeqLoop, hm] at h
      by_cases hov : digitsVal ds0 > INT64_MAX
      · simp only [hov, if_pos] at h
        exact absurd h (by simp)
      · simp only [hov, if_neg, if_false, ite_false] at h
        rcases List.mem_cons.mp hl with haeq | hmem
        · subst haeq
          rw [hm] at hmatch
          have hds : ds = ds0 := by
            have := Option.some.inj hmatch
            exact (Prod.mk.injEq _ _ _ _ ▸ this).2.symm
          subst hds
          have hstep := parseSeqLoop_le_max newMaster ls _ _ _ M N C h
          by_cases hgt : digitsVal ds > a
          · rw [if_pos hgt] at hstep; omega
          · rw [if_neg hgt] at hstep; omega
        · exact ih _ _ _ M N C h l hmem host ds hmatch

theorem parseSeqLoop_recorded (newMaster : String) :
    ∀ (lines : List String) (a b c M N C : Nat),
      parseSeqLoop newMaster lines a b c = some (M, N, C) →
      N = recordedNewMasterValue newMaster lines b := by
  intro lines
  induction lines with
  | nil =>
    intro a b c M N C h
    simp [parseSeqLoop] at h
    simp [recordedNewMasterValue]
    omega
  | cons l ls ih =>
    intro a b c M N C h
    cases hm : matchSeqLine l with
    | none =>
      rw [parseSeqLoop, hm] at h
      rw [recordedNewMasterValue, hm]
      exact ih a b c M N C h
    | some pair =>
      obtain ⟨host, ds⟩ := pair
      rw [parseSeqLoop, hm] at h
      rw [recordedNewMasterValue, hm]
      by_cases hov : digitsVal ds > INT64_MAX
      · simp only [hov, if_pos] at h
        exact absurd h (by simp)
      · simp only [hov, if_neg, if_false, ite_false] at h
        exact ih _ _ _ M N C h

theorem parseSeqLoop_count (newMaster : String) :
    ∀ (lines : List String) (a b c M N C : Nat),
      parseSeqLoop newMaster lines a b c = some (M, N, C) →
      C = c + (lines.filter (fun l => (matchSeqLine l).isSome)).length := by
  intro lines
  induction lines with
  | nil =>
    intro a b c M N C h
    simp [parseSeqLoop] at h
    simp
    omega
  | cons l ls ih =>
    intro a b c M N C h
    cases hm : matchSeqLine l with
    | none =>
      rw [parseSeqLoop, hm] at h
      have hfilter : (matchSeqLine l).isSome = false := by rw [hm]; rfl
      rw [List.filter_cons, hfilter]
      simpa using ih a b c M N C h
    | some pair =>
      obtain ⟨host, ds⟩ := pair
      rw [parseSeqLoop, hm] at h
      by_cases hov : digitsVal ds > INT64_MAX
      · simp only [hov, if_pos] at h
        exact absurd h (by simp)
      · simp only [hov, if_neg, if_false, ite_false] at h
        have hfilter : (matchSeqLine l).isSome = true := by rw [hm]; rfl
        rw [List.filter_cons, hfilter]
        have := ih _ _ _ M N C h
        simp only [if_true, List.length_cons]
        omega

theorem promoteAfterPrecheck_stale (env : PromoteEnv) (sequenceNumbers newMaster : String)
    (override : Option Nat)
    (l : String) (hl : l ∈ splitLines sequenceNumbers)
    (host : String) (ds : List Char) (hm : matchSeqLine l = some (host, ds))
    (hgt : recordedNewMasterValue newMaster (splitLines sequenceNumbers) 0 < digitsVal ds) :
    promoteAfterPrecheck env sequenceNumbers newMaster override = ⟨"OCF_ERR_GENERIC", false⟩ := by
  cases hp : parseSeqLoop newMaster (splitLines sequenceNumbers) 0 0 0 with
  | none => simp only [promoteAfterPrecheck, hp]
  | some triple =>
    obtain ⟨M, N, C⟩ := triple
    have hrec := parseSeqLoop_recorded newMaster (splitLines sequenceNumbers) 0 0 0 M N C hp
    have hle := parseSeqLoop_value_le newMaster (splitLines sequenceNumbers) 0 0 0 M N C hp
      l hl host ds hm
    have hNM : N < M := by omega
    simp only [promoteAfterPrecheck, hp, if_pos hNM]

theorem promoteAfterPrecheck_quorum (env : PromoteEnv) (sequenceNumbers newMaster : String)
    (override : Option Nat) (numSync : Nat)
    (hns : env.numSyncResult = .ok numSync)
    (hq : matchedSeqLineCount sequenceNumbers % UINT64_MOD <
      usub64 numSync (override.getD (calculateRequiredSynchronizedSecondariesToCommit numSync))) :
    promoteAfterPrecheck env sequenceNumbers newMaster override = ⟨"OCF_ERR_GENERIC", false⟩ := by
  cases hp : parseSeqLoop newMaster (splitLines sequenceNumbers) 0 0 0 with
  | none => simp only [promoteAfterPrecheck, hp]
  | some triple =>
    obtain ⟨M, N, C⟩ := triple
    have hC : C = matchedSeqLineCount sequenceNumbers := by
      have := parseSeqLoop_count newMaster (splitLines sequenceNumbers) 0 0 0 M N C hp
      simpa [matchedSeqLineCount] using this
    subst hC
    simp only [promoteAfterPrecheck, hp]
    by_cases h1 : N < M
    · rw [if_pos h1]
    · rw [if_neg h1]
      by_cases h2 : N = 0
      · rw [if_pos h2]
      · rw [if_neg h2]
        cases override with
        | none =>
          simp only [Option.getD_none] at hq
          simp only [hns]
          rw [if_pos hq]
        | some v =>
          simp only [Option.getD_some] at hq
          simp only [hns]
          rw [if_pos hq]

theorem promote_reaches_core (env : PromoteEnv) (sequenceNumbers newMaster : String)
    (skipPreCheck : Bool) (override : Option Nat)
    (hrole : env.roleResult ≠ Except.ok RolePRIMARY)
    (hcore : promoteAfterPrecheck env sequenceNumbers newMaster override =
      ⟨"OCF_ERR_GENERIC", false⟩) :
    promote env sequenceNumbers newMaster skipPreCheck override = ⟨"OCF_ERR_GENERIC", false⟩ := by
  cases hr : env.roleResult with
  | error e => simp only [promote, hr]
  | ok role =>
    by_cases hp : role = RolePRIMARY
    · exact absurd (hp ▸ hr) hrole
    · cases hs : skipPreCheck with
      | true =>
        simp only [promote, hr, if_neg hp, if_pos rfl]
        exact hcore
      | false =>
        cases hmode : env.modeResult with
        | error e =>
          simp only [promote, hr, if_neg hp, hmode, Bool.false_eq_true, if_neg, if_false,
            ite_false, reduceIte]
        | ok availabilityMode =>
          by_cases hsync : availabilityMode = AmSYNCHRONOUS_COMMIT
          · simp only [promote, hr, if_neg hp, hmode, if_pos hsync, Bool.false_eq_true,
              if_neg, if_false, ite_false, reduceIte]
            exact hcore
          · simp only [promote, hr, if_neg hp, hmode, if_neg hsync, Bool.false_eq_true,
              if_neg, if_false, ite_false, reduceIte]

/-- C1: Promotion monotonicity.  With the local replica not already in
PRIMARY role, for every sequence-numbers input blob: if any line parsed
by the regex carries a value strictly greater than the value recorded for
the host equal to new-master (0 when no line names that host), then
`promote` returns `OCF_ERR_GENERIC` and the `FAILOVER` DDL is never
issued (the database state is unchanged on this error path). -/
theorem promote_monotonicity (env : PromoteEnv) (sequenceNumbers newMaster : String)
    (skipPreCheck : Bool) (override : Option Nat)
    (hrole : env.roleResult ≠ Except.ok RolePRIMARY)
    (l : String) (hl : l ∈ splitLines sequenceNumbers)
    (host : String) (ds : List Char) (hm : matchSeqLine l = some (host, ds))
    (hgt : recordedNewMasterValue newMaster (splitLines sequenceNumbers) 0 < digitsVal ds) :
    (promote env sequenceNumbers newMaster skipPreCheck override).code = "OCF_ERR_GENERIC" ∧
    (promote env sequenceNumbers newMaster skipPreCheck override).failoverIssued = false := by
  have h := promote_reaches_core env sequenceNumbers newMaster skipPreCheck override hrole
    (promoteAfterPrecheck_stale env sequenceNumbers newMaster override l hl host ds hm hgt)
  rw [h]
  exact ⟨rfl, rfl⟩

/-- Witness for C1: spec seed scenario 3 — host A reports value 10, the
new master B reports 9, against a healthy SECONDARY replica environment;
`promote` returns `OCF_ERR_GENERIC` without issuing `FAILOVER`. -/
theorem promote_monotonicity_witness :
    (promote ⟨.ok 2, .ok 1, .ok 3, .ok (), .ok (), .ok ()⟩
        "name=\"s1\" host=\"A\" value=\"10\"\nname=\"s2\" host=\"B\" value=\"9\"" "B"
        false none).code = "OCF_ERR_GENERIC" ∧
    (promote ⟨.ok 2, .ok 1, .ok 3, .ok (), .ok (), .ok ()⟩
        "name=\"s1\" host=\"A\" value=\"10\"\nname=\"s2\" host=\"B\" value=\"9\"" "B"
        false none).failoverIssued = false :=
  promote_monotonicity ⟨.ok 2, .ok 1, .ok 3, .ok (), .ok (), .ok ()⟩
    "name=\"s1\" host=\"A\" value=\"10\"\nname=\"s2\" host=\"B\" value=\"9\"" "B" false none
    (by intro h; exact absurd (Except.ok.inj h) (by decide))
    "name=\"s1\" host=\"A\" value=\"10\"" (by decide)
    "A" ['1', '0'] (by decide) (by decide)

/-- C2: Promotion quorum.  In `promote` (local replica not already
PRIMARY, sequence-number precheck passed), with `numSync` the queried
count of SYNCHRONOUS_COMMIT replicas and `requiredValue` either the
operator override or the computed RSSTC value: if the number of
regex-matched sequence-number lines is strictly less than
`numSync − requiredValue` (the Go `uint` subtraction), `promote` returns
`OCF_ERR_GENERIC` before issuing `FAILOVER`. -/
theorem promote_quorum (env : PromoteEnv) (sequenceNumbers newMaster : String)
    (skipPreCheck : Bool) (override : Option Nat) (role : Nat)
    (hrole : env.roleResult = Except.ok role) (hnotp : role ≠ RolePRIMARY)
    (hpre : skipPreCheck = true ∨ env.modeResult = Except.ok AmSYNCHRONOUS_COMMIT)
    (numSync : Nat) (hns : env.numSyncResult = Except.ok numSync)
    (hq : matchedSeqLineCount sequenceNumbers % UINT64_MOD <
      usub64 numSync (override.getD (calculateRequiredSynchronizedSecondariesToCommit numSync))) :
    (promote env sequenceNumbers newMaster skipPreCheck override).code = "OCF_ERR_GENERIC" ∧
    (promote env sequenceNumbers newMaster skipPreCheck override).failoverIssued = false := by
  have hrole' : env.roleResult ≠ Except.ok RolePRIMARY := by
    intro h
    rw [hrole] at h
    exact hnotp (Except.ok.inj h)
  have h := promote_reaches_core env sequenceNumbers newMaster skipPreCheck override hrole'
    (promoteAfterPrecheck_quorum env sequenceNumbers newMaster override numSync hns hq)
  rw [h]
  exact ⟨rfl, rfl⟩

/-- Witness for C2: spec seed scenario 4 — `numSync = 3`, derived
`requiredValue = 1`, so 2 sequence numbers are required but only 1 line
is supplied; `promote` returns `OCF_ERR_GENERIC` without `FAILOVER`. -/
theorem promote_quorum_witness :
    (promote ⟨.ok 2, .ok 1, .ok 3, .ok (), .ok (), .ok ()⟩
        "name=\"s2\" host=\"B\" value=\"9\"" "B" false none).code = "OCF_ERR_GENERIC" ∧
    (promote ⟨.ok 2, .ok 1, .ok 3, .ok (), .ok (), .ok ()⟩
        "name=\"s2\" host=\"B\" value=\"9\"" "B" false none).failoverIssued = false :=
  promote_quorum ⟨.ok 2, .ok 1, .ok 3, .ok (), .ok (), .ok ()⟩
    "name=\"s2\" host=\"B\" value=\"9\"" "B" false none 2 rfl (by decide)
    (Or.inr rfl) 3 rfl (by decide)

theorem parseRsstcArg_le_max (arg : Int) (r : Nat)
    (harg : parseRsstcArg arg = .ok (some r)) : r ≤ MaxInt32 := by
  unfold parseRsstcArg at harg
  by_cases h1 : arg = -1
  · rw [if_pos h1] at harg
    exact absurd (Except.ok.inj harg) (by simp)
  · rw [if_neg h1] at harg
    by_cases h2 : arg < 0 ∨ arg > (MaxInt32 : Int)
    · rw [if_pos h2] at harg
      exact absurd harg (by simp)
    · rw [if_neg h2] at harg
      push_neg at h2
      have hr : r = arg.toNat := (Option.some.inj (Except.ok.inj harg)).symm
      subst hr
      omega

/-- C9 (implicit): in `promote`, `requiredNumSequenceNumbers` is the
unsigned subtraction `numSyncCommitReplicas −
requiredSynchronizedSecondariesToCommitValue`, so when the
operator-supplied `--required-synchronized-secondaries-to-commit`
(accepted by the dispatcher for any value between 0 and `MaxInt32`)
strictly exceeds the queried count of SYNCHRONOUS_COMMIT replicas, the
subtraction wraps modulo `2^64` and `promote` (local replica not already
PRIMARY) returns `OCF_ERR_GENERIC` — "Not enough replicas are online" —
for any physically realisable number of supplied sequence-number lines
(fewer than `2^64 − override`). -/
theorem promote_override_wraparound (env : PromoteEnv) (sequenceNumbers newMaster : String)
    (skipPreCheck : Bool) (arg : Int) (r numSync : Nat)
    (hrole : env.roleResult ≠ Except.ok RolePRIMARY)
    (harg : parseRsstcArg arg = .ok (some r))
    (hns : env.numSyncResult = Except.ok numSync)
    (hnsmod : numSync < UINT64_MOD)
    (hlt : numSync < r)
    (hcount : matchedSeqLineCount sequenceNumbers < UINT64_MOD - r) :
    (promote env sequenceNumbers newMaster skipPreCheck (some r)).code = "OCF_ERR_GENERIC" ∧
    (promote env sequenceNumbers newMaster skipPreCheck (some r)).failoverIssued = false := by
  have hrmax : r ≤ MaxInt32 := parseRsstcArg_le_max arg r harg
  have hrM : r < UINT64_MOD := by
    have : MaxInt32 < UINT64_MOD := by simp [MaxInt32, UINT64_MOD]
    omega
  have husub : usub64 numSync r = numSync + (UINT64_MOD - r) := by
    unfold usub64
    rw [Nat.mod_eq_of_lt hnsmod, Nat.mod_eq_of_lt hrM]
    have hlt2 : numSync + (UINT64_MOD - r) < UINT64_MOD := by omega
    exact Nat.mod_eq_of_lt hlt2
  have hq : matchedSeqLineCount sequenceNumbers % UINT64_MOD <
      usub64 numSync ((some r).getD (calculateRequiredSynchronizedSecondariesToCommit numSync)) := by
    rw [Option.getD_some, husub]
    have hcM : matchedSeqLineCount sequenceNumbers < UINT64_MOD := by omega
    rw [Nat.mod_eq_of_lt hcM]
    omega
  have h := promote_reaches_core env sequenceNumbers newMaster skipPreCheck (some r) hrole
    (promoteAfterPrecheck_quorum env sequenceNumbers newMaster (some r) numSync hns hq)
  rw [h]
  exact ⟨rfl, rfl⟩

/-- Witness for C9: override 5 (accepted by the dispatcher) against 3
SYNCHRONOUS_COMMIT replicas, an empty sequence-numbers blob and a healthy
SECONDARY environment: `promote` returns `OCF_ERR_GENERIC` and never
issues `FAILOVER`. -/
theorem promote_override_wraparound_witness :
    (promote ⟨.ok 2, .ok 1, .ok 3, .ok (), .ok (), .ok ()⟩ "" "B" false (some 5)).code =
      "OCF_ERR_GENERIC" ∧
    (promote ⟨.ok 2, .ok 1, .ok 3, .ok (), .ok (), .ok ()⟩ "" "B" false (some 5)).failoverIssued =
      false :=
  promote_override_wraparound ⟨.ok 2, .ok 1, .ok 3, .ok (), .ok (), .ok ()⟩ "" "B" false
    5 5 3
    (by intro h; exact absurd (Except.ok.inj h) (by decide))
    rfl rfl (by decide) (by decide) (by decide)

/-! ## Connect-with-health-check (mssqlcommon/lib.go, OpenDBWithHealthCheck) -/

/-- The errors flowing through `OpenDBWithHealthCheck`: typed
`ServerUnhealthyError` values (e.g. every `OpenDB` failure) or any other
Go error, modelled by its message. -/
inductive GoErr where
  | unhealthy (e : ServerUnhealthyError)
  | plain (msg : String)
deriving DecidableEq

/-- An event observed by the main flow's `select` loop: a connection
delivered on `dbChannel` (with the subsequent `QueryDiagnostics` result),
an error published on `errChannel`, or the deadline firing on
`timeoutChannel`. -/
inductive HcEvent where
  | dbArrived (diag : Except GoErr Diagnostics)
  | errArrived (e : GoErr)
  | timeoutFired

/-- What `OpenDBWithHealthCheck` returns: whether the `db` result is
non-nil, and the `err` result. -/
structure HcResult where
  dbOpen : Bool
  err : Option GoErr
deriving DecidableEq

/-- The message of the error synthesized when the deadline fires before
any connect attempt completed (Go
`fmt.Errorf("timed out while attempting to connect to the instance at %s:%d and run sp_server_diagnostics", hostname, port)`). -/
def timedOutMessage (hostname : String) (port : Nat) : String :=
  "timed out while attempting to connect to the instance at " ++ hostname ++ ":" ++
    toString port ++ " and run sp_server_diagnostics"

/-- The synthesized `ServerUnhealthyError{DownOrUnresponsive, ...}` of the
timeout branch. -/
def timeoutError (hostname : String) (port : Nat) : GoErr :=
  .unhealthy ⟨ServerDownOrUnresponsive, timedOutMessage hostname port⟩

/-- Embeds the `select` loop of `OpenDBWithHealthCheck` over the sequence
of events the main flow observes, carrying the latest published error:
a delivered connection returns (db, diagnosis); a published error is
remembered; the deadline returns nil and the remembered error, or the
synthesized timeout error when none was observed.  `none` means the event
sequence ended without a terminating event (the select would still be
blocked). -/
def hcLoop (hostname : String) (port : Nat) : Option GoErr → List HcEvent → Option HcResult
  | _, [] => none
  | lastErr, e :: rest =>
    match e with
    | .dbArrived (.error qerr) => some ⟨false, some qerr⟩
    | .dbArrived (.ok d) => some ⟨true, (Diagnose d).map GoErr.unhealthy⟩
    | .errArrived er => hcLoop hostname port (some er) rest
    | .timeoutFired =>
      match lastErr with
      | none => some ⟨false, some (timeoutError hostname port)⟩
      | some er => some ⟨false, some er⟩

theorem hcLoop_errs_then_timeout (hostname : String) (port : Nat) :
    ∀ (errs : List GoErr) (acc : Option GoErr),
      hcLoop hostname port acc (errs.map HcEvent.errArrived ++ [HcEvent.timeoutFired]) =
        some ⟨false, some (errs.getLast?.getD (acc.getD (timeoutError hostname port)))⟩ := by
  intro errs
  induction errs with
  | nil =>
    intro acc
    cases acc with
    | none => rfl
    | some er => rfl
  | cons e es ih =>
    intro acc
    have hstep : hcLoop hostname port acc
        (((e :: es).map HcEvent.errArrived) ++ [HcEvent.timeoutFired]) =
        hcLoop hostname port (some e) (es.map HcEvent.errArrived ++ [HcEvent.timeoutFired]) := by
      rfl
    rw [hstep, ih (some e)]
    cases es with
    | nil => rfl
    | cons e' es' =>
      have hne : (e' :: es') ≠ ([] : List GoErr) := by simp
      cases hlast : (e' :: es').getLast? with
      | none =>
        exact absurd (List.getLast?_eq_none_iff.mp hlast) hne
      | some x =>
        rw [List.getLast?_cons_cons, hlast]
        rfl

/-- C6: Health-check timeout semantics.  In every execution of
`OpenDBWithHealthCheck` in which no connection attempt succeeds before
the deadline (the main flow observes a sequence of published connect
errors and then the deadline), the function returns a nil connection
and: the last observed error if at least one attempt's failure was
observed, otherwise a synthesized `ServerUnhealthyError` with severity
`DownOrUnresponsive` whose message begins `"timed out"`. -/
theorem hc_timeout_semantics (hostname : String) (port : Nat) (errs : List GoErr) :
    hcLoop hostname port none (errs.map HcEvent.errArrived ++ [HcEvent.timeoutFired]) =
      some ⟨false, some (errs.getLast?.getD (timeoutError hostname port))⟩ ∧
    timeoutError hostname port =
      .unhealthy ⟨ServerDownOrUnresponsive, timedOutMessage hostname port⟩ ∧
    (∃ rest : List Char, (timedOutMessage hostname port).data = "timed out".data ++ rest) := by
  refine ⟨hcLoop_errs_then_timeout hostname port errs none, rfl, ?_⟩
  refine ⟨(" while attempting to connect to the instance at " ++ hostname ++ ":" ++
    toString port ++ " and run sp_server_diagnostics").data, ?_⟩
  show ("timed out while attempting to connect to the instance at " ++ hostname ++ ":" ++
    toString port ++ " and run sp_server_diagnostics").data = _
  simp [String.data_append]
